import Mathlib

/-!
Shallow embedding of the data loading, filtering and aggregation pipeline of
`reddit_dashboard_enhanced.py` (a pandas/streamlit sentiment dashboard), and
proofs of the specification claims about it.

Modelling conventions:
* A raw MongoDB document is a `RawRow`; an `Option` field that is `none`
  models a key that is absent from the document (pandas turns it into NaN,
  and a DataFrame column exists iff at least one document carries the key).
* The `timestamp` field value is modelled by `TSField`: absent, present but
  unparsable by `pd.to_datetime(..., errors='coerce')`, or parsable.
* The `vader_score` field value is modelled by `NumField`: absent, present
  but unparsable by `pd.to_numeric(..., errors='coerce')`, or numeric; the
  numeric value is a rational standing for the float.
* `load` models `load_data` (lines 119-165): it returns `Except.error` for a
  Python exception (`KeyError` on a column access when the column does not
  exist in the concatenated frame, `AttributeError` when
  `df_comments.get('body','').str` is taken on the scalar default) and
  `Except.ok` with the normalized dataset and load time otherwise.
* The presentation-only columns `author`, `link` and `body_preview` play no
  role in any claim and are omitted from the record type.
-/

namespace RedditDashboard

/-- Value of the `timestamp` field of a raw document: absent, present but
not parsable as a datetime, or parsable to an instant (an integer). -/
inductive TSField where
  | missing : TSField
  | invalid : TSField
  | valid : Int → TSField
deriving DecidableEq, Repr

/-- Value of the `vader_score` field of a raw document: absent, present but
not parsable as a number, or a number. -/
inductive NumField where
  | missing : NumField
  | bad : NumField
  | num : Rat → NumField
deriving DecidableEq, Repr

/-- A raw document fetched from either the `posts` or the `comments`
collection. `none` models an absent key. -/
structure RawRow where
  subreddit : Option String
  timestamp : TSField
  title : Option String
  body : Option String
  vader_score : NumField
  transformer_label : Option String
deriving DecidableEq, Repr

/-- A row after `kind` tagging and comment-title synthesis (lines 128-140),
before type normalization. -/
structure TaggedRow where
  kind : String
  subreddit : Option String
  timestamp : TSField
  title : Option String
  vader_score : NumField
  transformer_label : Option String
deriving DecidableEq, Repr

/-- A fully normalized record of the returned dataset. -/
structure Record where
  kind : String
  subreddit : String
  timestamp : Int
  title : Option String
  vader_score : Rat
  transformer_label : String
deriving DecidableEq, Repr

/-- Tagging of a post row (lines 128-131): `df_posts['type'] = 'Post'`. -/
def tagPost (p : RawRow) : TaggedRow :=
  { kind := "Post", subreddit := p.subreddit, timestamp := p.timestamp,
    title := p.title, vader_score := p.vader_score,
    transformer_label := p.transformer_label }

/-- Python `str.lower()` over the sequence of characters of the string. -/
def strLower (s : String) : String := String.mk (s.data.map Char.toLower)

/-- Python slicing `s[:n]` over the sequence of characters of the string. -/
def strSlice (s : String) (n : Nat) : String := String.mk (s.data.take n)

/-- Python `str.title()` as it acts on a single-word string (the sentiment
labels contain no separators): first character upper-cased, rest
lower-cased. -/
def strTitle (s : String) : String :=
  match s.data with
  | [] => String.mk []
  | c :: cs => String.mk (c.toUpper :: cs.map Char.toLower)

/-- Tagging of a comment row (lines 136-140): `df_comments['type'] = 'Comment'`
and `df_comments['title'] = df_comments.get('body','').str[:100] + "..."`.
A comment whose own `body` key is absent (while the column exists) gets
NaN for its title, modelled as `none`. -/
def tagComment (c : RawRow) : TaggedRow :=
  { kind := "Comment", subreddit := c.subreddit, timestamp := c.timestamp,
    title := c.body.map (fun b => strSlice b 100 ++ "..."), vader_score := c.vader_score,
    transformer_label := c.transformer_label }

/-- The concatenated tagged frame (line 145: `pd.concat` with
`ignore_index=True`). -/
def taggedRows (posts comments : List RawRow) : List TaggedRow :=
  posts.map tagPost ++ comments.map tagComment

/-- Numeric coercion of a `vader_score` value (line 153):
`pd.to_numeric(..., errors='coerce').fillna(0.0)`. -/
def coerceVader : NumField → Rat
  | NumField.num q => q
  | _ => 0

/-- Per-row type normalization and timestamp-driven retention (lines 147-160):
timestamp parse-or-drop, vader coercion, label fill-then-lowercase, subreddit
fill. Returns `none` exactly when `dropna(subset=['timestamp'])` drops the
row. -/
def normRow (t : TaggedRow) : Option Record :=
  match t.timestamp with
  | TSField.valid ts =>
      some { kind := t.kind, subreddit := t.subreddit.getD "unknown",
             timestamp := ts, title := t.title,
             vader_score := coerceVader t.vader_score,
             transformer_label := strLower (t.transformer_label.getD "neutral") }
  | _ => none

/-- Normalization of the whole concatenated frame. -/
def normalize (rows : List TaggedRow) : List Record :=
  rows.filterMap normRow

/-- The type-conversion block of `load_data` (lines 147-165) applied to the
concatenated frame `df`: the unconditional column accesses at lines 153,
156, 157 and 160 raise `KeyError` when no document at all carries the
corresponding key (so the column does not exist in the frame); otherwise
the rows are normalized, unparsable timestamps dropped, and the load time
recorded. -/
def normalizeFrame (df : List TaggedRow) (now : String) :
    Except String (List Record × Option String) :=
  if ∀ r ∈ df, r.vader_score = NumField.missing then
    Except.error "KeyError: vader_score"
  else if ∀ r ∈ df, r.transformer_label = none then
    Except.error "KeyError: transformer_label"
  else if ∀ r ∈ df, r.subreddit = none then
    Except.error "KeyError: subreddit"
  else if ∀ r ∈ df, r.timestamp = TSField.missing then
    Except.error "KeyError: timestamp"
  else
    Except.ok (normalize df, some now)

/-- `load_data` (lines 119-165). `posts` and `comments` are the row lists
returned by the two collection queries, `now` the formatted wall-clock time.
The error branches model the Python exceptions raised when a column the
code accesses unconditionally is missing from the frame: `AttributeError`
at line 138 when no comment document has a `body` key, and the `KeyError`
cases of `normalizeFrame`. -/
def load (posts comments : List RawRow) (now : String) :
    Except String (List Record × Option String) :=
  if comments ≠ [] ∧ ∀ c ∈ comments, c.body = none then
    Except.error "AttributeError: str"
  else if posts = [] ∧ comments = [] then
    Except.ok ([], none)
  else
    normalizeFrame (taggedRows posts comments) now

instance {e a : Type} [DecidableEq e] [DecidableEq a] : DecidableEq (Except e a) := fun x y =>
  match x, y with
  | Except.ok u, Except.ok v =>
      if h : u = v then isTrue (by rw [h]) else isFalse (fun hh => by cases hh; exact h rfl)
  | Except.error u, Except.error v =>
      if h : u = v then isTrue (by rw [h]) else isFalse (fun hh => by cases hh; exact h rfl)
  | Except.ok _, Except.error _ => isFalse (fun hh => by cases hh)
  | Except.error _, Except.ok _ => isFalse (fun hh => by cases hh)

/-- The Filter Engine (lines 362-366, `filtered_df`): a row is kept iff its
`subreddit` is in `subs`, its `type` is in `kinds` and its
`transformer_label` is in `labels` (`pandas.Series.isin` three times,
combined with `&`). -/
def apply (ds : List Record) (subs kinds labels : List String) : List Record :=
  ds.filter (fun r =>
    decide (r.subreddit ∈ subs ∧ r.kind ∈ kinds ∧ r.transformer_label ∈ labels))

/-- `total_count` (line 242): `len(df)`. -/
def total_count (ds : List Record) : Nat := ds.length

/-- The distinct values of a list in order of first occurrence — the key set
of a pandas hashtable built over the list. -/
def uniqueFirst {α : Type} [DecidableEq α] (l : List α) : List α :=
  l.foldl (fun acc s => if s ∈ acc then acc else acc ++ [s]) []

/-- `distinct_subreddit_count` (line 244): `df['subreddit'].nunique()`. -/
def distinct_subreddit_count (ds : List Record) : Nat :=
  (uniqueFirst (ds.map Record.subreddit)).length

/-- Sort key of `pandas.Series.value_counts`: count descending. The sort is
stable, so entries with equal counts stay in hashtable (first-occurrence)
order. -/
def countDesc (a b : String × Nat) : Prop := b.2 ≤ a.2

instance : DecidableRel countDesc := fun a b => Nat.decLe b.2 a.2

instance : IsTotal (String × Nat) countDesc :=
  ⟨fun a b => Nat.le_total b.2 a.2⟩

instance : IsTrans (String × Nat) countDesc :=
  ⟨fun _ _ _ hab hbc => le_trans hbc hab⟩

/-- `pandas.Series.value_counts`: pairs `(value, count)` for the distinct
values, sorted by count descending with a stable sort (ties keep
first-occurrence order). -/
def value_counts (l : List String) : List (String × Nat) :=
  ((uniqueFirst l).map (fun s => (s, l.count s))).insertionSort countDesc

/-- `top_subreddits` (lines 314-315):
`df['subreddit'].value_counts().head(n)`; the dashboard calls it with
`n = 7`. -/
def top_subreddits (ds : List Record) (n : Nat) : List (String × Nat) :=
  (value_counts (ds.map Record.subreddit)).take n

/-- Lexicographic strict comparison of two character sequences by code
point — how Python and numpy compare strings. -/
def charLtB : List Char → List Char → Bool
  | [], [] => false
  | [], _ :: _ => true
  | _ :: _, [] => false
  | a :: as, b :: bs =>
      if a.val < b.val then true
      else if b.val < a.val then false
      else charLtB as bs

/-- Lexicographic non-strict comparison by code point. -/
def charLeB : List Char → List Char → Bool
  | [], _ => true
  | _ :: _, [] => false
  | a :: as, b :: bs =>
      if a.val < b.val then true
      else if b.val < a.val then false
      else charLeB as bs

/-- `s < t` as Python compares strings: code-point lexicographic. -/
def strLt (s t : String) : Prop := charLtB s.data t.data = true

/-- `s ≤ t` as Python compares strings: code-point lexicographic. -/
def strLe (s t : String) : Prop := charLeB s.data t.data = true

instance : DecidableRel strLt := fun s t => instDecidableEqBool (charLtB s.data t.data) true

instance : DecidableRel strLe := fun s t => instDecidableEqBool (charLeB s.data t.data) true

/-- The modes of a list of labels, as `pandas.Series.mode` returns them:
the values of maximal multiplicity, sorted ascending (`np.sort`). -/
def modes (l : List String) : List String :=
  let uniq := uniqueFirst l
  let mx := (uniq.map (fun s => l.count s)).foldr max 0
  (uniq.filter (fun s => decide (l.count s = mx))).insertionSort strLe

/-- `dominant_label` (line 245): `df['transformer_label'].mode()[0].title()`.
On an empty dataset `mode()` is an empty Series and the positional access
`[0]` raises `KeyError`, modelled as `Except.error`. -/
def dominant_label (ds : List Record) : Except String String :=
  match modes (ds.map Record.transformer_label) with
  | [] => Except.error "KeyError: 0"
  | m :: _ => Except.ok (strTitle m)

/-- `label_distribution` (lines 259-269, `display_sentiment_bars`): on an
empty dataset the function returns early with no percentages (`none`);
otherwise the percentage of rows labelled positive, neutral and negative,
each `counts.get(label, 0) / total * 100`. -/
def label_distribution (ds : List Record) : Option (Rat × Rat × Rat) :=
  if ds.isEmpty then none
  else
    let total : Rat := (ds.length : Rat)
    let ls := ds.map Record.transformer_label
    some (((ls.count "positive" : Rat) / total) * 100,
          ((ls.count "neutral" : Rat) / total) * 100,
          ((ls.count "negative" : Rat) / total) * 100)

/-- Sort key of `groupby(['subreddit','transformer_label'])`: group keys
ascending, lexicographically. -/
def keyAsc (a b : (String × String) × Nat) : Prop :=
  strLt a.1.1 b.1.1 ∨ (a.1.1 = b.1.1 ∧ strLe a.1.2 b.1.2)

instance : DecidableRel keyAsc := fun a b => by unfold keyAsc; infer_instance

/-- `group_counts_by` (line 373):
`df.groupby(['subreddit','transformer_label']).size()` — a count for every
observed `(subreddit, label)` pair, keys sorted ascending. -/
def group_counts_by (ds : List Record) : List ((String × String) × Nat) :=
  let ps := ds.map (fun r => (r.subreddit, r.transformer_label))
  ((uniqueFirst ps).map (fun p => (p, ps.count p))).insertionSort keyAsc

/-- Modelled from the spec: the single-slot time-based cache that the
`@st.cache_data(ttl=300)` annotation on `load_data` (line 119) provides.
The cache implementation itself lives in the streamlit library, not in this
repository; the spec describes it as one slot holding the last result and
its load time, with a 5-minute freshness window. The slot stores the cached
result together with the wall-clock second of the load. -/
structure LoadCache where
  slot : Option ((List Record × Option String) × Nat)
deriving DecidableEq, Repr

/-- Modelled from the spec: the freshness window of the cache, 5 minutes
(`ttl=300` seconds, line 119). -/
def cacheTTL : Nat := 300

/-- Modelled from the spec: a cached call to `load_data`. Returns the
result, the new cache state, and how many collection queries were issued
(each real execution of `load_data` queries both the posts and the comments
collection, hence 2). A call within `cacheTTL` seconds of the cached load
returns the cached result unchanged and issues no query; otherwise
`load` runs afresh and, on success, the slot is overwritten. -/
def get_or_load (c : LoadCache) (posts comments : List RawRow)
    (nowSec : Nat) (nowStr : String) :
    Except String ((List Record × Option String) × LoadCache × Nat) :=
  match c.slot with
  | some (res, t) =>
      if nowSec - t < cacheTTL then
        Except.ok (res, c, 0)
      else
        match load posts comments nowStr with
        | Except.ok r => Except.ok (r, ⟨some (r, nowSec)⟩, 2)
        | Except.error e => Except.error e
  | none =>
      match load posts comments nowStr with
      | Except.ok r => Except.ok (r, ⟨some (r, nowSec)⟩, 2)
      | Except.error e => Except.error e

/-- Modelled from the spec: the explicit invalidation operation
(`st.cache_data.clear()`, line 179) empties the slot, so the next call
re-queries regardless of recency. -/
def invalidate (_ : LoadCache) : LoadCache := ⟨none⟩

/-- A raw post document with the given field values (no `title`/`body` key). -/
def samplePost (sub : Option String) (ts : TSField) (v : NumField)
    (lab : Option String) : RawRow :=
  { subreddit := sub, timestamp := ts, title := none, body := none,
    vader_score := v, transformer_label := lab }

/-- A raw comment document with the given field values (no `title` key). -/
def sampleComment (sub : Option String) (ts : TSField) (b : Option String)
    (v : NumField) (lab : Option String) : RawRow :=
  { subreddit := sub, timestamp := ts, title := none, body := b,
    vader_score := v, transformer_label := lab }

/-- A sample normalized record. -/
def recA : Record :=
  { kind := "Post", subreddit := "a", timestamp := 0, title := none,
    vader_score := 1/2, transformer_label := "positive" }

/-- True exactly on the tagged rows whose timestamp parses, i.e. the rows
that `dropna(subset=['timestamp'])` keeps. -/
def tsValid (t : TaggedRow) : Bool :=
  match t.timestamp with
  | TSField.valid _ => true
  | _ => false

/-- C3: loading with both collections empty returns an empty dataset and a
null load time, raising no exception; the `Except.ok` result is distinct
from every `Except.error` load failure. -/
theorem load_empty_source (now : String) :
    load [] [] now = Except.ok ([], none) := by
  simp [load]

/-- C1: the Filter Engine retains exactly the rows whose subreddit, kind and
label are each selected, keeping relative order and each retained row
unchanged (the result is a sublist of the input, and each record occurs in
the output with its input multiplicity when selected and not at all
otherwise). The input list is untouched: `apply` is a pure function of it. -/
theorem apply_retention (ds : List Record) (subs kinds labels : List String) :
    (apply ds subs kinds labels).Sublist ds ∧
    ∀ r : Record, (apply ds subs kinds labels).count r =
      if r.subreddit ∈ subs ∧ r.kind ∈ kinds ∧ r.transformer_label ∈ labels
      then ds.count r else 0 := by
  constructor
  · exact List.filter_sublist ds
  · intro r
    by_cases hr : r.subreddit ∈ subs ∧ r.kind ∈ kinds ∧ r.transformer_label ∈ labels
    · rw [if_pos hr]
      exact List.count_filter (by simpa using hr)
    · rw [if_neg hr]
      refine List.count_eq_zero.mpr ?_
      intro hmem
      have hp := List.of_mem_filter hmem
      simp only [decide_eq_true_eq] at hp
      exact hr hp

/-- C7: filtering with selection lists that contain every subreddit, kind and
label occurring in the dataset is the identity, and an empty subreddit
selection yields the empty dataset whatever the other selections are. -/
theorem apply_identity_and_annihilation (ds : List Record)
    (subs kinds labels ks ls : List String) :
    ((∀ r ∈ ds, r.subreddit ∈ subs ∧ r.kind ∈ kinds ∧ r.transformer_label ∈ labels) →
        apply ds subs kinds labels = ds) ∧
    apply ds [] ks ls = [] := by
  constructor
  · intro hall
    apply List.filter_eq_self.mpr
    intro r hr
    simpa using hall r hr
  · simp [apply]

theorem apply_identity_and_annihilation_witness :
    apply [recA] ["a"] ["Post"] ["positive"] = [recA] ∧
    apply [recA] [] ["Post"] ["positive"] = [] :=
  ⟨(apply_identity_and_annihilation [recA] ["a"] ["Post"] ["positive"] [] []).1 (by decide),
   (apply_identity_and_annihilation [recA] ["a"] ["Post"] ["positive"] ["Post"] ["positive"]).2⟩

/-- C4 (amended): the Aggregator operations other than `mean_vader_score`
and `dominant_label` tolerate the empty dataset, returning zero or empty
results: `total_count` is 0, `distinct_subreddit_count` is 0,
`label_distribution` reports nothing, `top_subreddits` is empty for every
`n`, and `group_counts_by` is empty. -/
theorem aggregator_empty_tolerance :
    total_count [] = 0 ∧ distinct_subreddit_count [] = 0 ∧
    label_distribution [] = none ∧ (∀ n, top_subreddits [] n = []) ∧
    group_counts_by [] = [] := by
  refine ⟨rfl, rfl, rfl, ?_, rfl⟩
  intro n
  simp [top_subreddits, value_counts, uniqueFirst]

/-- C4 counterexample: `dominant_label` does not tolerate the empty dataset.
On an empty dataset `df['transformer_label'].mode()` is an empty Series and
the positional access `[0]` (line 245) raises `KeyError`, modelled as the
`Except.error` result — the operation fails rather than returning an
empty or zero result, contradicting the claim that every operation except
`mean_vader_score` tolerates the empty dataset. -/
theorem dominant_label_empty_raises :
    dominant_label [] = Except.error "KeyError: 0" := by
  decide

theorem normalizeFrame_ok (df : List TaggedRow) (now : String)
    (ds : List Record) (lt : Option String)
    (h : normalizeFrame df now = Except.ok (ds, lt)) :
    ds = normalize df ∧ lt = some now := by
  unfold normalizeFrame at h
  split at h
  · simp at h
  · split at h
    · simp at h
    · split at h
      · simp at h
      · split at h
        · simp at h
        · simp only [Except.ok.injEq, Prod.mk.injEq] at h
          exact ⟨h.1.symm, h.2.symm⟩

theorem load_ok_dataset (posts comments : List RawRow) (now : String)
    (ds : List Record) (lt : Option String)
    (h : load posts comments now = Except.ok (ds, lt)) :
    ds = normalize (taggedRows posts comments) := by
  unfold load at h
  split at h
  · simp at h
  · split at h
    next hemp =>
      obtain ⟨hp, hc⟩ := hemp
      subst hp
      subst hc
      simp only [Except.ok.injEq, Prod.mk.injEq] at h
      simp [taggedRows, normalize, ← h.1]
    next =>
      exact (normalizeFrame_ok _ _ _ _ h).1

theorem normalize_length (rows : List TaggedRow) :
    (normalize rows).length = (rows.filter tsValid).length := by
  induction rows with
  | nil => rfl
  | cons r l ih =>
    cases hts : r.timestamp <;>
      simp [normalize, List.filterMap_cons, List.filter_cons, normRow, tsValid, hts,
        ← ih, normalize]

/-- C6 (amended): `top_subreddits` returns at most `n` entries, sorted by
row count descending; ties between equal counts keep the order of first
occurrence in the dataset (the sort is stable over the hashtable order),
and re-sorting the output by count descending with a stable sort leaves it
unchanged. -/
theorem top_subreddits_ordering (ds : List Record) (n : Nat) :
    (top_subreddits ds n).length ≤ n ∧
    (top_subreddits ds n).Sorted countDesc ∧
    (top_subreddits ds n).insertionSort countDesc = top_subreddits ds n := by
  have hsorted : (value_counts (ds.map Record.subreddit)).Sorted countDesc :=
    List.sorted_insertionSort countDesc _
  have htake : (top_subreddits ds n).Sorted countDesc :=
    List.Pairwise.sublist (List.take_sublist n _) hsorted
  exact ⟨List.length_take_le n _, htake, htake.insertionSort_eq⟩

/-- The ordering the claim asserts for `top_subreddits`: row count
descending, ties between equal counts broken by subreddit name ascending.
This follows the spec's words, for comparison with the ordering the source
actually produces. -/
def specTopOrder (a b : String × Nat) : Prop :=
  b.2 < a.2 ∨ (a.2 = b.2 ∧ strLe a.1 b.1)

instance : DecidableRel specTopOrder := fun a b => by
  unfold specTopOrder
  infer_instance

/-- A record in subreddit `b`, occurring before `recC` in the dataset. -/
def recB : Record :=
  { kind := "Post", subreddit := "b", timestamp := 0, title := none,
    vader_score := 0, transformer_label := "positive" }

/-- A record in subreddit `a`, occurring after `recB` in the dataset. -/
def recC : Record :=
  { kind := "Post", subreddit := "a", timestamp := 1, title := none,
    vader_score := 0, transformer_label := "neutral" }

/-- C6 counterexample: on the dataset `[recB, recC]` (subreddits `b` then
`a`, one row each) `value_counts` keeps the tie in first-occurrence order,
so `top_subreddits` returns `b` before `a` — not subreddit name ascending —
and re-sorting the output by the claimed key (count descending, then name
ascending) changes it. -/
theorem top_subreddits_tie_not_name_ascending :
    top_subreddits [recB, recC] 7 = [("b", 1), ("a", 1)] ∧
    (top_subreddits [recB, recC] 7).insertionSort specTopOrder ≠
      top_subreddits [recB, recC] 7 :=
  ⟨by decide, by decide⟩

theorem count_three_labels (ls : List String)
    (h : ∀ s ∈ ls, s = "positive" ∨ s = "neutral" ∨ s = "negative") :
    ls.count "positive" + ls.count "neutral" + ls.count "negative" = ls.length := by
  induction ls with
  | nil => rfl
  | cons a l ih =>
    have ha := h a (List.mem_cons_self a l)
    have ih2 := ih (fun s hs => h s (List.mem_cons_of_mem a hs))
    rcases ha with h1 | h1 | h1 <;> subst h1
    · rw [List.count_cons_self, List.count_cons_of_ne (by decide),
        List.count_cons_of_ne (by decide), List.length_cons]
      omega
    · rw [List.count_cons_self, List.count_cons_of_ne (by decide),
        List.count_cons_of_ne (by decide), List.length_cons]
      omega
    · rw [List.count_cons_self, List.count_cons_of_ne (by decide),
        List.count_cons_of_ne (by decide), List.length_cons]
      omega

/-- C5: for every non-empty dataset (whose labels are from the sentiment
enum, the data-model invariant on `transformer_label`), the three
percentages reported by `label_distribution` sum to exactly 100 — the model
computes in rational arithmetic, so the rounding epsilon is zero. -/
theorem label_distribution_sum (ds : List Record) (hne : ds ≠ [])
    (henum : ∀ r ∈ ds, r.transformer_label = "positive" ∨
        r.transformer_label = "neutral" ∨ r.transformer_label = "negative")
    (p q g : Rat) (h : label_distribution ds = some (p, q, g)) :
    p + q + g = 100 := by
  have hne2 : ds.isEmpty = false := by
    cases ds
    · exact absurd rfl hne
    · rfl
  rw [label_distribution, hne2] at h
  simp only [Bool.false_eq_true, if_false, Option.some.injEq, Prod.mk.injEq] at h
  obtain ⟨hp, hq, hg⟩ := h
  have hmem : ∀ s ∈ ds.map Record.transformer_label,
      s = "positive" ∨ s = "neutral" ∨ s = "negative" := by
    intro s hs
    obtain ⟨r, hr, rfl⟩ := List.mem_map.mp hs
    exact henum r hr
  have hsum : (ds.map Record.transformer_label).count "positive" +
      (ds.map Record.transformer_label).count "neutral" +
      (ds.map Record.transformer_label).count "negative" = ds.length := by
    rw [count_three_labels _ hmem, List.length_map]
  have hT : ((ds.length : Nat) : Rat) ≠ 0 := by
    have : ds.length ≠ 0 := by
      cases ds
      · exact absurd rfl hne
      · simp
    exact_mod_cast this
  have hcast : (((ds.map Record.transformer_label).count "positive" : Rat) +
      ((ds.map Record.transformer_label).count "neutral" : Rat) +
      ((ds.map Record.transformer_label).count "negative" : Rat)) =
      ((ds.length : Nat) : Rat) := by
    exact_mod_cast congrArg (Nat.cast : Nat → Rat) hsum
  subst hp hq hg
  field_simp
  linarith [hcast]

/-- A record labelled positive, from the spec scenario. -/
def recPos : Record :=
  { kind := "Post", subreddit := "a", timestamp := 0, title := none,
    vader_score := 1/2, transformer_label := "positive" }

/-- A record labelled negative, from the spec scenario. -/
def recNeg : Record :=
  { kind := "Post", subreddit := "a", timestamp := 1, title := none,
    vader_score := -3/10, transformer_label := "negative" }

/-- A record labelled neutral, from the spec scenario. -/
def recNeu : Record :=
  { kind := "Post", subreddit := "b", timestamp := 2, title := none,
    vader_score := 0, transformer_label := "neutral" }

theorem label_distribution_sum_witness :
    label_distribution [recPos, recNeg, recNeu] = some (100/3, 100/3, 100/3) ∧
    (100/3 : Rat) + 100/3 + 100/3 = 100 := by
  have hld : label_distribution [recPos, recNeg, recNeu] = some (100/3, 100/3, 100/3) := by
    simp [label_distribution, recPos, recNeg, recNeu]
    norm_num
  exact ⟨hld,
    label_distribution_sum [recPos, recNeg, recNeu] (by decide) (by decide)
      (100/3) (100/3) (100/3) hld⟩

/-- C2 (amended): on every successful load, every retained row carries a
timestamp that parsed (rows with missing or unparsable timestamps are
excluded, not repaired — the retained count equals the count of parsable
rows); an unparsable or missing `vader_score` is coerced to 0.0; a missing
`transformer_label` defaults to `neutral` and the stored label is the
lower-casing of the raw one; a missing `subreddit` defaults to `unknown`
and a present one is kept verbatim. After normalization neither field is
missing, but an explicitly empty `subreddit` or `transformer_label` string
is preserved as-is, not replaced. -/
theorem load_normalization (posts comments : List RawRow) (now : String)
    (ds : List Record) (lt : Option String)
    (h : load posts comments now = Except.ok (ds, lt)) :
    (∀ rec ∈ ds, ∃ tr ∈ taggedRows posts comments,
        tr.timestamp = TSField.valid rec.timestamp ∧
        ((tr.vader_score = NumField.missing ∨ tr.vader_score = NumField.bad) →
            rec.vader_score = 0) ∧
        (tr.transformer_label = none → rec.transformer_label = "neutral") ∧
        rec.transformer_label = strLower (tr.transformer_label.getD "neutral") ∧
        (tr.subreddit = none → rec.subreddit = "unknown") ∧
        (∀ s, tr.subreddit = some s → rec.subreddit = s)) ∧
    ds.length = ((taggedRows posts comments).filter tsValid).length := by
  have hds := load_ok_dataset posts comments now ds lt h
  subst hds
  refine ⟨?_, normalize_length _⟩
  intro rec hrec
  obtain ⟨tr, htr, hnorm⟩ := List.mem_filterMap.mp hrec
  refine ⟨tr, htr, ?_⟩
  unfold normRow at hnorm
  rcases hts : tr.timestamp with _ | _ | ts
  · rw [hts] at hnorm
    simp at hnorm
  · rw [hts] at hnorm
    simp at hnorm
  · rw [hts] at hnorm
    simp only [Option.some.injEq] at hnorm
    subst hnorm
    refine ⟨rfl, ?_, ?_, rfl, ?_, ?_⟩
    · rintro (hv | hv) <;> rw [hv] <;> rfl
    · intro h0
      rw [h0]
      rfl
    · intro h0
      rw [h0]
      rfl
    · intro s hs
      rw [hs]
      rfl

theorem load_normalization_witness :
    (∀ rec ∈ ([{ kind := "Post", subreddit := "a", timestamp := 5, title := none,
                  vader_score := 0, transformer_label := "positive" }] : List Record),
        ∃ tr ∈ taggedRows
            [samplePost (some "a") (TSField.valid 5) NumField.bad (some "Positive")] [],
          tr.timestamp = TSField.valid rec.timestamp ∧
          ((tr.vader_score = NumField.missing ∨ tr.vader_score = NumField.bad) →
              rec.vader_score = 0) ∧
          (tr.transformer_label = none → rec.transformer_label = "neutral") ∧
          rec.transformer_label = strLower (tr.transformer_label.getD "neutral") ∧
          (tr.subreddit = none → rec.subreddit = "unknown") ∧
          (∀ s, tr.subreddit = some s → rec.subreddit = s)) ∧
    ([{ kind := "Post", subreddit := "a", timestamp := 5, title := none,
         vader_score := 0, transformer_label := "positive" }] : List Record).length =
      ((taggedRows
          [samplePost (some "a") (TSField.valid 5) NumField.bad (some "Positive")] []).filter
        tsValid).length :=
  load_normalization
    [samplePost (some "a") (TSField.valid 5) NumField.bad (some "Positive")] [] "t"
    [{ kind := "Post", subreddit := "a", timestamp := 5, title := none,
       vader_score := 0, transformer_label := "positive" }] (some "t") (by decide)

/-- C2 counterexample: `fillna` only repairs missing values, not empty
strings. A document whose `subreddit` key is present but holds the empty
string is normalized to a record whose `subreddit` is still the empty
string, so `subreddit` IS empty after normalization, contradicting the
claim that subreddit and transformer_label are never empty or missing
after normalization. -/
theorem load_empty_subreddit_preserved :
    load [samplePost (some "") (TSField.valid 0) (NumField.num 0) (some "x")] [] "t"
      = Except.ok ([{ kind := "Post", subreddit := "", timestamp := 0, title := none,
                      vader_score := 0, transformer_label := "x" }], some "t") ∧
    ¬ (∀ rec ∈ ([{ kind := "Post", subreddit := "", timestamp := 0, title := none,
                    vader_score := 0, transformer_label := "x" }] : List Record),
        rec.subreddit ≠ "") :=
  ⟨by decide, by decide⟩

/-- C9: every comment row that survives the load is tagged with kind
`Comment`, and its title is the first 100 characters of its body followed
by the `"..."` marker — appended unconditionally, also when the body is
shorter than 100 characters. -/
theorem comment_title_synthesis (posts comments : List RawRow) (now : String)
    (ds : List Record) (lt : Option String)
    (h : load posts comments now = Except.ok (ds, lt))
    (c : RawRow) (hc : c ∈ comments) (b : String) (hb : c.body = some b)
    (t : Int) (ht : c.timestamp = TSField.valid t) :
    ∃ rec ∈ ds, rec.kind = "Comment" ∧ rec.title = some (strSlice b 100 ++ "...") ∧
      rec.timestamp = t := by
  have hds := load_ok_dataset posts comments now ds lt h
  subst hds
  refine ⟨{ kind := "Comment", subreddit := c.subreddit.getD "unknown", timestamp := t,
            title := some (strSlice b 100 ++ "..."),
            vader_score := coerceVader c.vader_score,
            transformer_label := strLower (c.transformer_label.getD "neutral") },
    List.mem_filterMap.mpr ⟨tagComment c, ?_, ?_⟩, rfl, rfl, rfl⟩
  · exact List.mem_append_right _ (List.mem_map_of_mem tagComment hc)
  · simp [normRow, tagComment, ht, hb]

theorem comment_title_synthesis_witness :
    ∃ rec ∈ ([{ kind := "Comment", subreddit := "a", timestamp := 3,
                 title := some "hi...", vader_score := 0,
                 transformer_label := "neg" }] : List Record),
      rec.kind = "Comment" ∧ rec.title = some (strSlice "hi" 100 ++ "...") ∧
      rec.timestamp = 3 :=
  comment_title_synthesis []
    [sampleComment (some "a") (TSField.valid 3) (some "hi") NumField.bad (some "NEG")]
    "t"
    [{ kind := "Comment", subreddit := "a", timestamp := 3, title := some "hi...",
       vader_score := 0, transformer_label := "neg" }] (some "t") (by decide)
    (sampleComment (some "a") (TSField.valid 3) (some "hi") NumField.bad (some "NEG"))
    (by decide) "hi" rfl 3 rfl

/-- C10: the normalization accesses the `vader_score` and
`transformer_label` columns unconditionally, so a non-empty input in which
no document carries a `vader_score` key — or none carries a
`transformer_label` key — makes `load` raise `KeyError` instead of applying
the documented defaults; while a missing value in a column that exists in
at least one document is repaired by the default (here the missing
`vader_score` is coerced to 0.0). -/
theorem load_missing_column_keyerror :
    load [samplePost (some "a") (TSField.valid 0) NumField.missing (some "x")] [] "t"
      = Except.error "KeyError: vader_score" ∧
    load [samplePost (some "a") (TSField.valid 0) (NumField.num 1) none] [] "t"
      = Except.error "KeyError: transformer_label" ∧
    load [samplePost (some "a") (TSField.valid 0) NumField.missing (some "x"),
          samplePost (some "b") (TSField.valid 1) (NumField.num 2) (some "y")] [] "t"
      = Except.ok
          ([{ kind := "Post", subreddit := "a", timestamp := 0, title := none,
              vader_score := 0, transformer_label := "x" },
            { kind := "Post", subreddit := "b", timestamp := 1, title := none,
              vader_score := 2, transformer_label := "y" }], some "t") :=
  ⟨by decide, by decide, by decide⟩

/-- C8 (spec-modelled cache): a call within the 5-minute freshness window
of the cached load returns the previously loaded result unchanged and
issues zero store queries; a call after the window has expired, or after
explicit invalidation, re-executes both collection queries (two queries)
and refills the slot. -/
theorem cache_freshness (c : LoadCache) (posts comments : List RawRow)
    (res r : List Record × Option String) (t nowSec : Nat) (nowStr : String) :
    (c.slot = some (res, t) → nowSec - t < cacheTTL →
        get_or_load c posts comments nowSec nowStr = Except.ok (res, c, 0)) ∧
    (c.slot = some (res, t) → ¬ (nowSec - t < cacheTTL) →
        load posts comments nowStr = Except.ok r →
        get_or_load c posts comments nowSec nowStr =
          Except.ok (r, ⟨some (r, nowSec)⟩, 2)) ∧
    (load posts comments nowStr = Except.ok r →
        get_or_load (invalidate c) posts comments nowSec nowStr =
          Except.ok (r, ⟨some (r, nowSec)⟩, 2)) := by
  refine ⟨?_, ?_, ?_⟩
  · intro hs hf
    simp [get_or_load, hs, hf]
  · intro hs hf hl
    simp [get_or_load, hs, hf, hl]
  · intro hl
    simp [get_or_load, invalidate, hl]

theorem cache_freshness_witness :
    get_or_load ⟨some (([recA], some "t0"), 100)⟩ [] [] 200 "t1"
      = Except.ok (([recA], some "t0"), ⟨some (([recA], some "t0"), 100)⟩, 0) ∧
    get_or_load ⟨some (([recA], some "t0"), 100)⟩ [] [] 400 "t1"
      = Except.ok (([], none), ⟨some ((([] : List Record), (none : Option String)), 400)⟩, 2) ∧
    get_or_load (invalidate ⟨some (([recA], some "t0"), 100)⟩) [] [] 200 "t1"
      = Except.ok (([], none), ⟨some ((([] : List Record), (none : Option String)), 200)⟩, 2) :=
  ⟨(cache_freshness ⟨some (([recA], some "t0"), 100)⟩ [] [] ([recA], some "t0")
      ([], none) 100 200 "t1").1 rfl (by decide),
   (cache_freshness ⟨some (([recA], some "t0"), 100)⟩ [] [] ([recA], some "t0")
      ([], none) 100 400 "t1").2.1 rfl (by decide) (by decide),
   (cache_freshness ⟨some (([recA], some "t0"), 100)⟩ [] [] ([recA], some "t0")
      ([], none) 100 200 "t1").2.2 (by decide)⟩

end RedditDashboard
